import Mathlib

/-!
# Verification of the Teamleader MCP credential lifecycle

A shallow embedding, in Lean 4, of the credential lifecycle manager of the
repository: the `TokenManager` class of `src/auth/auth-server.ts`, the OAuth
exchange helpers and `FileTokenStorage` of the auth module, and the `withRetry`
call wrapper of `src/index.ts`.

Modelling conventions:

* JavaScript truthiness is modelled explicitly: an optional string field is
  truthy iff it is present and nonempty; an optional numeric field is truthy
  iff it is present and nonzero (`0` is falsy — this matters for
  `needsRefresh`, which guards on `!this.expiresAt`).
* Timestamps (`Date.now()`, `expiresAt`) are integers (milliseconds); an
  absent (`undefined`) timestamp is `Option.none`.
* `async` methods that can reject are embedded as functions into
  `Except String _`; the network call `refreshAccessToken` is abstracted as an
  environment `exchange : Nat → Except String TokenResponse` giving the
  outcome of the n-th attempt (1-indexed).
* File I/O is abstracted as an explicit file state: `missing` (no file),
  `corrupt` (content `JSON.parse` rejects), or a stored record.  Writes are
  modelled as succeeding (a failing write is caught and only logged by
  `saveTokens`, so it does not affect the control flow being verified).
* The cooperative (single-threaded, run-to-completion) promise semantics of
  the single-flight `refreshPromise` handle is modelled as a small event
  machine `SFState` below; sequential method calls are modelled as state
  transformers over a `World` (manager state, file state, count of underlying
  exchange calls).
-/

namespace Teamleader

/-- JS truthiness of an optional string (`undefined` and `""` are falsy). -/
def jsTruthyStr : Option String → Bool
  | none => false
  | some s => !(s == "")

/-- JS truthiness of an optional number (`undefined` and `0` are falsy). -/
def jsTruthyNum : Option Int → Bool
  | none => false
  | some t => !(t == 0)

/-- `const REFRESH_BUFFER_MS = 5 * 60 * 1000` -/
def REFRESH_BUFFER_MS : Int := 5 * 60 * 1000

/-- `const MAX_REFRESH_RETRIES = 3` -/
def MAX_REFRESH_RETRIES : Nat := 3

/-- The token endpoint's success payload (`TokenResponse` in the auth module). -/
structure TokenResponse where
  access_token : String
  refresh_token : String
  expires_in : Int
deriving Repr, DecidableEq

/-- `OAuthConfig` (redirectUri kept, scopes omitted: never read by the core). -/
structure OAuthConfig where
  clientId : String
  clientSecret : String
  redirectUri : String
deriving Repr, DecidableEq

/-- `TokenManagerConfig` (the `tokenStoragePath` field is abstracted away:
file addressing is replaced by the explicit `FileState` below). -/
structure TokenManagerConfig where
  accessToken : String
  clientId : Option String
  clientSecret : Option String
  refreshToken : Option String
deriving Repr, DecidableEq

/-- The mutable fields of the `TokenManager` class.  `refreshPromise` is not a
field here: it is `undefined` whenever the manager is quiescent, and its
in-flight behaviour is modelled by the `SFState` machine below. -/
structure TokenManager where
  accessToken : String
  refreshToken : Option String
  expiresAt : Option Int
  oauthConfig : Option OAuthConfig
deriving Repr, DecidableEq

/-- The `TokenManager` constructor: refresh is enabled only when `clientId`,
`clientSecret` and `refreshToken` are all (JS-)truthy. -/
def TokenManager.create (config : TokenManagerConfig) : TokenManager :=
  { accessToken := config.accessToken
    refreshToken := config.refreshToken
    expiresAt := none
    oauthConfig :=
      if jsTruthyStr config.clientId && jsTruthyStr config.clientSecret
          && jsTruthyStr config.refreshToken then
        some { clientId := config.clientId.getD ""
               clientSecret := config.clientSecret.getD ""
               redirectUri := "http://localhost:3000/callback" }
      else none }

/-- `canRefresh(): boolean { return !!this.oauthConfig && !!this.refreshToken; }` -/
def TokenManager.canRefresh (m : TokenManager) : Bool :=
  m.oauthConfig.isSome && jsTruthyStr m.refreshToken

/-- `needsRefresh()`: false when refresh is unavailable; false when
`this.expiresAt` is JS-falsy (`undefined` or `0`); otherwise compares
`Date.now()` against `expiresAt - REFRESH_BUFFER_MS`. -/
def TokenManager.needsRefresh (m : TokenManager) (now : Int) : Bool :=
  if !m.canRefresh then false
  else if !(jsTruthyNum m.expiresAt) then false
  else decide (now > m.expiresAt.getD 0 - REFRESH_BUFFER_MS)

/-- `setExpired(): void { this.expiresAt = 0; }` -/
def TokenManager.setExpired (m : TokenManager) : TokenManager :=
  { m with expiresAt := some 0 }

/-- `setExpiresAt(timestamp: number): void { this.expiresAt = timestamp; }` -/
def TokenManager.setExpiresAt (m : TokenManager) (timestamp : Int) : TokenManager :=
  { m with expiresAt := some timestamp }

/-- The on-disk record written by `TokenManager.saveTokens` (`StoredTokens`).
`refreshToken` is optional because the source writes `this.refreshToken!`
(non-null assertion): an absent token serializes as an absent key. -/
structure StoredTokens where
  accessToken : String
  refreshToken : Option String
  expiresAt : Option Int
deriving Repr, DecidableEq

/-- State of the token-storage file: absent, bad (unreadable, or content
`JSON.parse` rejects — both land in the same catch), or a parsed record. -/
inductive FileState where
  | missing
  | corrupt
  | stored (r : StoredTokens)
deriving Repr, DecidableEq

/-- `saveTokens()`: overwrites the backing file with
`{accessToken, refreshToken, expiresAt}` (write errors are caught and only
logged, so the write is modelled as succeeding). -/
def TokenManager.saveTokens (m : TokenManager) (_f : FileState) : FileState :=
  FileState.stored
    { accessToken := m.accessToken
      refreshToken := m.refreshToken
      expiresAt := m.expiresAt }

/-- `loadStoredTokens()`: any read/parse failure is swallowed (`return false`);
a parsed record is adopted only when both `stored.accessToken` and
`stored.refreshToken` are truthy. -/
def TokenManager.loadStoredTokens (m : TokenManager) (f : FileState) :
    TokenManager × Bool :=
  match f with
  | FileState.stored st =>
      if !(st.accessToken == "") && jsTruthyStr st.refreshToken then
        ({ m with accessToken := st.accessToken
                  refreshToken := st.refreshToken
                  expiresAt := st.expiresAt }, true)
      else (m, false)
  | _ => (m, false)

/-- `initialize()` (named `init` here): loads stored tokens, then, when
refresh is available but `this.expiresAt` is JS-falsy, sets
`expiresAt = Date.now() + 60 * 60 * 1000` (one hour ahead). -/
def TokenManager.init (m : TokenManager) (f : FileState) (now : Int) :
    TokenManager :=
  let m1 := (TokenManager.loadStoredTokens m f).1
  if m1.canRefresh && !(jsTruthyNum m1.expiresAt) then
    { m1 with expiresAt := some (now + 60 * 60 * 1000) }
  else m1

/-- A sequential execution context: the manager, the storage file, and the
number of calls made so far to the underlying `refreshAccessToken` exchange. -/
structure World where
  mgr : TokenManager
  file : FileState
  calls : Nat
deriving Repr, DecidableEq

/-- The retry loop body of `doRefresh`, by remaining attempts.  Each iteration
calls `refreshAccessToken` (counted in `World.calls`); on success it replaces
the in-memory credential, persists via `saveTokens`, and returns; on failure
it records the error and retries; after the last attempt it throws
`Token refresh failed after 3 attempts: <last error>`. -/
def doRefreshGo (exchange : Nat → Except String TokenResponse) (now : Int) :
    Nat → Option String → World → Except String Unit × World
  | 0, lastErr, w =>
      (Except.error ("Token refresh failed after " ++ toString MAX_REFRESH_RETRIES
        ++ " attempts: " ++ lastErr.getD "undefined"), w)
  | Nat.succ k, _lastErr, w =>
      let w1 : World := { w with calls := w.calls + 1 }
      match exchange (MAX_REFRESH_RETRIES - k) with
      | Except.ok tokens =>
          let m1 : TokenManager :=
            { w1.mgr with
                accessToken := tokens.access_token
                refreshToken := some tokens.refresh_token
                expiresAt := some (now + tokens.expires_in * 1000) }
          (Except.ok (), { mgr := m1, file := m1.saveTokens w1.file, calls := w1.calls })
      | Except.error e => doRefreshGo exchange now k (some e) w1

/-- `doRefresh()`: up to `MAX_REFRESH_RETRIES` attempts. -/
def doRefresh (exchange : Nat → Except String TokenResponse) (now : Int)
    (w : World) : Except String Unit × World :=
  doRefreshGo exchange now MAX_REFRESH_RETRIES none w

/-- `refresh()` in a quiescent manager (`refreshPromise === undefined`; the
concurrent join path is the `SFState` machine below): rejects when
`canRefresh()` is false, otherwise runs `doRefresh`. -/
def TokenManager.refresh (exchange : Nat → Except String TokenResponse)
    (now : Int) (w : World) : Except String Unit × World :=
  if !w.mgr.canRefresh then
    (Except.error
      "Token refresh not available. Set CLIENT_ID, CLIENT_SECRET, and REFRESH_TOKEN.",
     w)
  else doRefresh exchange now w

/-- `getAccessToken()`: refreshes first iff `needsRefresh()`, propagating a
refresh rejection; otherwise returns the current token. -/
def TokenManager.getAccessToken (exchange : Nat → Except String TokenResponse)
    (now : Int) (w : World) : Except String String × World :=
  if w.mgr.needsRefresh now then
    match TokenManager.refresh exchange now w with
    | (Except.ok _, w1) => (Except.ok w1.mgr.accessToken, w1)
    | (Except.error e, w1) => (Except.error e, w1)
  else (Except.ok w.mgr.accessToken, w)

/-! ## The authenticated-call wrapper (`withRetry` in `src/index.ts`) -/

/-- Errors thrown by a wrapped call: `TeamleaderApiError` (carries the HTTP
status) or any other `Error`.  The refresh callback, when it rejects, throws a
plain error, which is the `other` constructor. -/
inductive TLError where
  | api (message : String) (status : Int)
  | other (message : String)
deriving Repr, DecidableEq

/-- The guard of the retry branch:
`error instanceof TeamleaderApiError && error.status === 401`. -/
def isAuth401 : TLError → Bool
  | TLError.api _ s => s == 401
  | TLError.other _ => false

/-- `withRetry(fn)`: the wrapped operation is modelled by the outcome of its
n-th invocation (1-indexed); the `onTokenRefresh` callback, present only when
the server was created with one, by its outcome (`Except.ok newToken` or a
rejection).  Returns the wrapper's result and how many times `fn` ran:
the first call; on a 401 `TeamleaderApiError` with a callback present, the
callback runs and the call is retried exactly once; any other failure (or a
callback rejection) propagates with no retry. -/
def withRetry {α : Type} (fn : Nat → Except TLError α)
    (onTokenRefresh : Option (Except TLError String)) :
    Except TLError α × Nat :=
  match fn 1 with
  | Except.ok a => (Except.ok a, 1)
  | Except.error e =>
      if isAuth401 e && onTokenRefresh.isSome then
        match onTokenRefresh with
        | some (Except.ok _newToken) => (fn 2, 2)
        | some (Except.error re) => (Except.error re, 1)
        | none => (Except.error e, 1)
      else (Except.error e, 1)

/-! ## `FileTokenStorage` (auth module)

Its record type has only two fields: `saveTokens(accessToken, refreshToken)`
writes `{accessToken, refreshToken}` — no `expiresAt`. -/

/-- The record `FileTokenStorage` persists. -/
structure FTRecord where
  accessToken : String
  refreshToken : String
deriving Repr, DecidableEq

/-- State of `FileTokenStorage`'s backing file: absent, bad (unreadable or
unparseable), or a parsed record. -/
inductive FTFile where
  | missing
  | corrupt
  | stored (r : FTRecord)
deriving Repr, DecidableEq

namespace FileTokenStorage

/-- `getTokens()`: `JSON.parse` of the file, any error caught and `null`
returned. -/
def getTokens : FTFile → Option FTRecord
  | FTFile.stored r => some r
  | _ => none

/-- `saveTokens(accessToken, refreshToken)`: overwrites the file with
`JSON.stringify({ accessToken, refreshToken })`. -/
def saveTokens (accessToken refreshToken : String) (_f : FTFile) : FTFile :=
  FTFile.stored { accessToken := accessToken, refreshToken := refreshToken }

/-- `clearTokens()`: unlinks the file, ignoring a missing-file error. -/
def clearTokens (_f : FTFile) : FTFile := FTFile.missing

/-- Reading `FileTokenStorage`'s record as a three-field credential: the
`expiresAt` key is never written, so a loaded object has it `undefined`. -/
def loadAsCredential (f : FTFile) : Option StoredTokens :=
  (getTokens f).map fun r =>
    { accessToken := r.accessToken, refreshToken := some r.refreshToken,
      expiresAt := none }

end FileTokenStorage

/-! ## The single-flight `refreshPromise` machine

JavaScript's run-to-completion semantics makes the synchronous prefix of
`refresh()` — the `if (this.refreshPromise) return this.refreshPromise;`
check followed by `this.refreshPromise = this.doRefresh();` — atomic: no
other logical caller can run between the check and the assignment.  The
machine below models exactly that: an `enter` event is one caller executing
that prefix (joining the pending operation if one is installed, otherwise
installing a fresh one), and a `settle` event is the installed operation
completing, whereupon the installer's `finally` clears the handle. -/

/-- Outcome of one underlying refresh operation (shared by all its joiners:
a promise settles once, and every awaiter observes that settlement). -/
inductive SFOutcome where
  | success (token : String)
  | failure (message : String)
deriving Repr, DecidableEq

/-- The single-flight state: the pending handle (operation id of the
in-flight `doRefresh`, if any), a fresh-id source, how many operations have
been started, and which caller awaits which operation. -/
structure SFState where
  pending : Option Nat
  nextOp : Nat
  started : Nat
  joined : List (Nat × Nat)
deriving Repr, DecidableEq

/-- Caller `c` runs the synchronous prefix of `refresh()`: if a handle is
installed it awaits that handle; otherwise it starts a new `doRefresh`,
installs its handle, and awaits it. -/
def sfEnter (c : Nat) (s : SFState) : SFState :=
  match s.pending with
  | some o => { s with joined := (c, o) :: s.joined }
  | none =>
      { pending := some s.nextOp
        nextOp := s.nextOp + 1
        started := s.started + 1
        joined := (c, s.nextOp) :: s.joined }

/-- The pending operation settles (fulfilled or rejected); the `finally`
block clears `refreshPromise`. -/
def sfSettle (s : SFState) : SFState := { s with pending := none }

/-- A batch of callers entering `refresh()` with no settlement in between
(all issued while the refresh is outstanding). -/
def sfEnterAll (cs : List Nat) (s : SFState) : SFState :=
  cs.foldl (fun t c => sfEnter c t) s

/-- The outcome caller `c` observes: the settlement of the operation it
joined (`out` assigns each operation id its settlement). -/
def sfObserves (out : Nat → SFOutcome) (p : Nat × Nat) : SFOutcome := out p.2

/-! ## Concrete instances used in the theorems below -/

/-- A refresh-capable manager: all three optional config fields supplied. -/
def rcMgr : TokenManager :=
  TokenManager.create
    { accessToken := "tok", clientId := some "id",
      clientSecret := some "secret", refreshToken := some "rt" }

/-- `rcMgr` after a known expiry was set and then `setExpired()` was called
(the Call Wrapper's recovery sequence). -/
def rcMgrExpired : TokenManager :=
  (rcMgr.setExpiresAt 1700000000000).setExpired

/-- A static-mode manager: only an access token, no OAuth registration. -/
def staticMgr (tok : String) : TokenManager :=
  TokenManager.create
    { accessToken := tok, clientId := none, clientSecret := none,
      refreshToken := none }

/-- A token endpoint that definitively rejects the grant on every attempt
(`invalid_grant`: the refresh token is invalid/expired/revoked). -/
def rejectExchange : Nat → Except String TokenResponse :=
  fun _ => Except.error "Failed to refresh token: invalid_grant"

/-! ## Shared lemmas -/

/-- When every one of the three attempts fails, `doRefresh` returns the
wrapped last error and leaves manager and file untouched, having made
exactly three exchange calls. -/
theorem doRefresh_allFail (exchange : Nat → Except String TokenResponse)
    (now : Int) (w : World) (e1 e2 e3 : String)
    (h1 : exchange 1 = Except.error e1) (h2 : exchange 2 = Except.error e2)
    (h3 : exchange 3 = Except.error e3) :
    doRefresh exchange now w =
      (Except.error ("Token refresh failed after " ++ toString MAX_REFRESH_RETRIES
        ++ " attempts: " ++ e3),
       { w with calls := w.calls + 3 }) := by
  simp [doRefresh, doRefreshGo, MAX_REFRESH_RETRIES, h1, h2, h3]

/-- Entering while a handle is installed only adds joiners to that same
handle: pending, id source and started count are unchanged. -/
theorem sfEnterAll_pending (cs : List Nat) (s : SFState) (o : Nat)
    (hp : s.pending = some o) :
    sfEnterAll cs s =
      { s with joined := cs.reverse.map (fun c => (c, o)) ++ s.joined } := by
  induction cs generalizing s with
  | nil => simp [sfEnterAll]
  | cons c cs ih =>
      have hstep : sfEnterAll (c :: cs) s = sfEnterAll cs (sfEnter c s) := by
        simp [sfEnterAll]
      rw [hstep]
      have henter : sfEnter c s = { s with joined := (c, o) :: s.joined } := by
        simp [sfEnter, hp]
      rw [henter, ih { s with joined := (c, o) :: s.joined } hp]
      simp

/-! ## Claim theorems -/

/-- Claim C1 (code bug): `setExpired()` is supposed to make the next
`getAccessToken()` refresh unconditionally, but it assigns `expiresAt = 0`
and `needsRefresh()` guards on `!this.expiresAt`, for which `0` is falsy:
on a refresh-capable manager after `setExpired()`, `needsRefresh()` is
`false` at every time, and `getAccessToken()` returns the stale token
without a single exchange call, even with a working token endpoint. -/
theorem setExpired_defeats_forced_refresh (now : Int)
    (exchange : Nat → Except String TokenResponse) (f : FileState) (n : Nat) :
    rcMgrExpired.canRefresh = true ∧
    rcMgrExpired.expiresAt = some 0 ∧
    rcMgrExpired.needsRefresh now = false ∧
    TokenManager.getAccessToken exchange now ⟨rcMgrExpired, f, n⟩ =
      (Except.ok "tok", ⟨rcMgrExpired, f, n⟩) := by
  refine ⟨rfl, rfl, ?_, ?_⟩ <;>
    simp [rcMgrExpired, rcMgr, TokenManager.create, TokenManager.setExpiresAt,
      TokenManager.setExpired, TokenManager.needsRefresh, TokenManager.canRefresh,
      TokenManager.getAccessToken, jsTruthyStr, jsTruthyNum]

/-- Claim C2 counterexample: a refresh-capable manager with unknown expiry,
after `initialize()` (with no stored file, so the expiry stays unknown until
the final step), reports `needsRefresh() == false` — not `true` as claimed —
because `initialize()` sets the expiry one hour ahead instead of marking the
token near-expiry. -/
theorem init_unknown_expiry_counterexample :
    rcMgr.canRefresh = true ∧
    rcMgr.expiresAt = none ∧
    (rcMgr.init FileState.missing 0).expiresAt = some 3600000 ∧
    (rcMgr.init FileState.missing 0).needsRefresh 0 = false := by
  decide

/-- Claim C2 (amended): when refresh capability is enabled and the expiry is
unknown (JS-falsy) after loading stored tokens, `initialize()` sets
`expiresAt` to one hour after `now`; immediately afterwards `needsRefresh()`
reports `false`, and it becomes `true` only within `REFRESH_BUFFER_MS` of
that synthetic expiry. -/
theorem init_unknown_expiry_one_hour (m : TokenManager) (f : FileState)
    (now : Int) (hnow : 0 ≤ now)
    (hcan : ((TokenManager.loadStoredTokens m f).1).canRefresh = true)
    (hexp : jsTruthyNum ((TokenManager.loadStoredTokens m f).1).expiresAt = false) :
    (TokenManager.init m f now).expiresAt = some (now + 60 * 60 * 1000) ∧
    (TokenManager.init m f now).needsRefresh now = false ∧
    (∀ later : Int, (TokenManager.init m f now).needsRefresh later =
      decide (later > now + 60 * 60 * 1000 - REFRESH_BUFFER_MS)) := by
  have hinit : TokenManager.init m f now =
      { (TokenManager.loadStoredTokens m f).1 with
          expiresAt := some (now + 60 * 60 * 1000) } := by
    simp [TokenManager.init, hcan, hexp]
  have hc2 : (((TokenManager.loadStoredTokens m f).1).oauthConfig.isSome
      && jsTruthyStr ((TokenManager.loadStoredTokens m f).1).refreshToken) = true := by
    simpa [TokenManager.canRefresh] using hcan
  have h0 : ((now + 60 * 60 * 1000 : Int) == 0) = false :=
    beq_eq_false_iff_ne.mpr (by omega)
  refine ⟨by rw [hinit], ?_, ?_⟩
  · rw [hinit]
    simp [TokenManager.needsRefresh, TokenManager.canRefresh, hc2,
      jsTruthyNum, h0, REFRESH_BUFFER_MS]
    omega
  · intro later
    rw [hinit]
    simp [TokenManager.needsRefresh, TokenManager.canRefresh, hc2,
      jsTruthyNum, h0, REFRESH_BUFFER_MS]
    omega

/-- Witness for `init_unknown_expiry_one_hour` at `rcMgr`, a missing file and
`now = 0`. -/
theorem init_unknown_expiry_one_hour_witness :
    (rcMgr.init FileState.missing 0).expiresAt = some (0 + 60 * 60 * 1000) :=
  (init_unknown_expiry_one_hour rcMgr FileState.missing 0 (by decide)
    (by decide) (by decide)).1

/-- Claim C3: single-flight.  From a quiescent state, a batch of `1 + n`
callers (`n ≥ 1`, so `N ≥ 2`) entering `refresh()` with no settlement in
between starts exactly one underlying operation; every caller of the batch
joins that one operation (id `s.nextOp`) and therefore observes the one
settlement `out s.nextOp`, success or failure alike; settling clears the
handle, and a later distinct entry starts a second operation. -/
theorem refresh_single_flight (c : Nat) (rest : List Nat) (s : SFState)
    (out : Nat → SFOutcome) (hp : s.pending = none) (_hn : 1 ≤ rest.length) :
    (sfEnterAll (c :: rest) s).started = s.started + 1 ∧
    (∀ p ∈ (sfEnterAll (c :: rest) s).joined, p ∉ s.joined → p.2 = s.nextOp) ∧
    (∀ p ∈ (sfEnterAll (c :: rest) s).joined, p ∉ s.joined →
      sfObserves out p = out s.nextOp) ∧
    (sfSettle (sfEnterAll (c :: rest) s)).pending = none ∧
    (∀ d : Nat, (sfEnter d (sfSettle (sfEnterAll (c :: rest) s))).started
      = s.started + 2) := by
  have hstep : sfEnterAll (c :: rest) s = sfEnterAll rest (sfEnter c s) := by
    simp [sfEnterAll]
  have henter : sfEnter c s =
      { pending := some s.nextOp, nextOp := s.nextOp + 1,
        started := s.started + 1, joined := (c, s.nextOp) :: s.joined } := by
    simp [sfEnter, hp]
  have hall : sfEnterAll (c :: rest) s =
      { pending := some s.nextOp, nextOp := s.nextOp + 1,
        started := s.started + 1,
        joined := rest.reverse.map (fun d => (d, s.nextOp))
          ++ (c, s.nextOp) :: s.joined } := by
    rw [hstep, henter, sfEnterAll_pending rest _ s.nextOp rfl]
  have hjoin : ∀ p ∈ (sfEnterAll (c :: rest) s).joined, p ∉ s.joined →
      p.2 = s.nextOp := by
    intro p hmem hnot
    rw [hall] at hmem
    simp only [List.mem_append, List.mem_cons, List.mem_map] at hmem
    rcases hmem with ⟨d, _, hd⟩ | hd | hd
    · rw [← hd]
    · rw [hd]
    · exact absurd hd hnot
  refine ⟨by rw [hall], hjoin, ?_, by simp [hall, sfSettle], ?_⟩
  · intro p hmem hnot
    simp [sfObserves, hjoin p hmem hnot]
  · intro d
    rw [hall]
    simp [sfSettle, sfEnter]

/-- Witness for `refresh_single_flight`: two callers from the empty quiescent
state start exactly one operation. -/
theorem refresh_single_flight_witness :
    (sfEnterAll [1, 2] (SFState.mk none 0 0 [])).started = 0 + 1 :=
  (refresh_single_flight 1 [2] (SFState.mk none 0 0 [])
    (fun _ => SFOutcome.success "t") rfl (by decide)).1

/-- Claim C4: the call-wrapper retry-once law.  With the refresh callback
installed (the refresh-capable wiring) and a first invocation failing with a
401 `TeamleaderApiError`: if the second invocation succeeds the wrapper
returns that success having run the operation exactly twice; if the second
invocation also fails the wrapper propagates that second failure, still with
exactly two runs (no third).  A first failure that is not a 401
`TeamleaderApiError` propagates unmodified after a single run, whatever the
callback. -/
theorem withRetry_retry_once_law {α : Type} (fn : Nat → Except TLError α)
    (newToken : String) (e1 : TLError) (h1 : fn 1 = Except.error e1) :
    (isAuth401 e1 = true → ∀ a : α, fn 2 = Except.ok a →
      withRetry fn (some (Except.ok newToken)) = (Except.ok a, 2)) ∧
    (isAuth401 e1 = true → ∀ e2 : TLError, fn 2 = Except.error e2 →
      withRetry fn (some (Except.ok newToken)) = (Except.error e2, 2)) ∧
    (isAuth401 e1 = false → ∀ cb : Option (Except TLError String),
      withRetry fn cb = (Except.error e1, 1)) := by
  refine ⟨?_, ?_, ?_⟩
  · intro hauth a h2
    simp [withRetry, h1, h2, hauth]
  · intro hauth e2 h2
    simp [withRetry, h1, h2, hauth]
  · intro hauth cb
    simp [withRetry, h1, hauth]

/-- Witness for `withRetry_retry_once_law`: a call that is rejected with 401
once and then succeeds is retried exactly once and returns the success. -/
theorem withRetry_retry_once_law_witness :
    withRetry
      (fun n => if n = 1
        then (Except.error (TLError.api "unauthorized" 401) : Except TLError String)
        else Except.ok "data")
      (some (Except.ok "tok2")) = (Except.ok "data", 2) :=
  (withRetry_retry_once_law
    (fun n => if n = 1
      then (Except.error (TLError.api "unauthorized" 401) : Except TLError String)
      else Except.ok "data")
    "tok2" (TLError.api "unauthorized" 401) rfl).1 rfl "data" rfl

/-- Claim C5: if all three bounded refresh attempts fail, `refresh()` surfaces
an error while the in-memory credential (`accessToken`, `refreshToken`,
`expiresAt`) and the stored file are exactly as before, and a subsequent
`getAccessToken()` that does not need a refresh still returns the previous
access token — the manager is not locked out. -/
theorem refresh_exhaustion_preserves_state
    (exchange : Nat → Except String TokenResponse) (now : Int) (w : World)
    (e1 e2 e3 : String) (hcan : w.mgr.canRefresh = true)
    (h1 : exchange 1 = Except.error e1) (h2 : exchange 2 = Except.error e2)
    (h3 : exchange 3 = Except.error e3) :
    (TokenManager.refresh exchange now w).1 =
      Except.error ("Token refresh failed after " ++ toString MAX_REFRESH_RETRIES
        ++ " attempts: " ++ e3) ∧
    ((TokenManager.refresh exchange now w).2).mgr = w.mgr ∧
    ((TokenManager.refresh exchange now w).2).file = w.file ∧
    (∀ (exchange2 : Nat → Except String TokenResponse) (now2 : Int),
      w.mgr.needsRefresh now2 = false →
      (TokenManager.getAccessToken exchange2 now2
        ((TokenManager.refresh exchange now w).2)).1 =
          Except.ok w.mgr.accessToken) := by
  have hr : TokenManager.refresh exchange now w =
      (Except.error ("Token refresh failed after " ++ toString MAX_REFRESH_RETRIES
        ++ " attempts: " ++ e3),
       { w with calls := w.calls + 3 }) := by
    rw [TokenManager.refresh, hcan]
    simpa using doRefresh_allFail exchange now w e1 e2 e3 h1 h2 h3
  refine ⟨by rw [hr], by rw [hr], by rw [hr], ?_⟩
  intro exchange2 now2 hnr
  rw [hr]
  simp [TokenManager.getAccessToken, hnr]

/-- Witness for `refresh_exhaustion_preserves_state` at `rcMgr` with a
uniformly failing endpoint. -/
theorem refresh_exhaustion_preserves_state_witness :
    ((TokenManager.refresh (fun _ => Except.error "boom") 0
      { mgr := rcMgr, file := FileState.missing, calls := 0 }).2).mgr = rcMgr :=
  (refresh_exhaustion_preserves_state (fun _ => Except.error "boom") 0
    { mgr := rcMgr, file := FileState.missing, calls := 0 }
    "boom" "boom" "boom" (by decide) rfl rfl rfl).2.1

/-- Claim C6 counterexample: a token endpoint that definitively rejects the
grant (`invalid_grant`) is nonetheless called three times by `doRefresh` —
the rejection is retried, not surfaced after the first attempt. -/
theorem doRefresh_retries_definitive_rejection :
    (doRefresh rejectExchange 0
      { mgr := rcMgr, file := FileState.missing, calls := 0 }).2.calls = 3 ∧
    ¬((doRefresh rejectExchange 0
      { mgr := rcMgr, file := FileState.missing, calls := 0 }).2.calls = 1) := by
  decide

/-- Claim C6 (amended): `doRefresh` does not distinguish definitive
token-endpoint rejections from transient failures — any uniformly failing
exchange, a definitive rejection included, is retried for the full 3-attempt
bound, after which the failure surfaces wrapped in the generic
`Token refresh failed after 3 attempts: <last error>` message (no dedicated
re-authentication-required signal). -/
theorem doRefresh_uniform_retry (e : String) (now : Int) (w : World) :
    doRefresh (fun _ => Except.error e) now w =
      (Except.error ("Token refresh failed after " ++ toString MAX_REFRESH_RETRIES
        ++ " attempts: " ++ e),
       { w with calls := w.calls + 3 }) :=
  doRefresh_allFail (fun _ => Except.error e) now w e e e rfl rfl rfl

/-- Claim C7 counterexample: `FileTokenStorage` persists only
`{accessToken, refreshToken}`; saving a credential whose expiry is known and
loading it back yields a credential whose `expiresAt` is absent — the
round-trip loses the third field. -/
theorem fileTokenStorage_drops_expiry :
    FileTokenStorage.loadAsCredential
        (FileTokenStorage.saveTokens "tok" "rt" FTFile.missing) =
      some (StoredTokens.mk "tok" (some "rt") none) ∧
    ¬(FileTokenStorage.loadAsCredential
        (FileTokenStorage.saveTokens "tok" "rt" FTFile.missing) =
      some (StoredTokens.mk "tok" (some "rt") (some 1000))) := by
  decide

/-- Claim C7 (amended): the Token Manager's own store round-trips all three
fields — `saveTokens` writes `{accessToken, refreshToken, expiresAt}` and a
subsequent `loadStoredTokens` (into any manager) restores exactly them —
for every valid credential, i.e. whenever `accessToken` and `refreshToken`
are nonempty. -/
theorem tokenManager_store_roundtrip (m m2 : TokenManager) (f : FileState)
    (ha : ¬(m.accessToken = "")) (hr : jsTruthyStr m.refreshToken = true) :
    TokenManager.loadStoredTokens m2 (TokenManager.saveTokens m f) =
      ({ m2 with accessToken := m.accessToken, refreshToken := m.refreshToken,
                 expiresAt := m.expiresAt }, true) := by
  have ha' : (m.accessToken == "") = false := beq_eq_false_iff_ne.mpr ha
  simp [TokenManager.saveTokens, TokenManager.loadStoredTokens, ha', hr]

/-- Witness for `tokenManager_store_roundtrip` at a concrete credential with
a known expiry. -/
theorem tokenManager_store_roundtrip_witness :
    TokenManager.loadStoredTokens (staticMgr "old")
      (TokenManager.saveTokens (TokenManager.mk "tok" (some "rt") (some 99) none)
        FileState.missing) =
      ({ staticMgr "old" with accessToken := "tok", refreshToken := some "rt",
                              expiresAt := some 99 }, true) :=
  tokenManager_store_roundtrip (TokenManager.mk "tok" (some "rt") (some 99) none)
    (staticMgr "old") FileState.missing (by decide) (by decide)

/-- Claim C8: both load operations are total functions of the file state (by
construction they never throw), and on a missing or unparseable file they
return the Absent value: `FileTokenStorage.getTokens` returns `null` and
`TokenManager.loadStoredTokens` returns `false` leaving the manager
untouched. -/
theorem load_absent_on_missing_or_corrupt (m : TokenManager) :
    FileTokenStorage.getTokens FTFile.missing = none ∧
    FileTokenStorage.getTokens FTFile.corrupt = none ∧
    TokenManager.loadStoredTokens m FileState.missing = (m, false) ∧
    TokenManager.loadStoredTokens m FileState.corrupt = (m, false) :=
  ⟨rfl, rfl, rfl, rfl⟩

/-- Claim C9: a manager built from only an access token reports
`canRefresh() == false`, and `getAccessToken()` returns the original token
with no state change and no exchange call, at every time and under any
manually set expiry. -/
theorem static_mode_token_unchanged (tok : String)
    (exchange : Nat → Except String TokenResponse) (now t : Int)
    (f : FileState) (n : Nat) :
    (staticMgr tok).canRefresh = false ∧
    ((staticMgr tok).setExpiresAt t).needsRefresh now = false ∧
    TokenManager.getAccessToken exchange now
      { mgr := (staticMgr tok).setExpiresAt t, file := f, calls := n } =
      (Except.ok tok,
       { mgr := (staticMgr tok).setExpiresAt t, file := f, calls := n }) := by
  refine ⟨rfl, ?_, ?_⟩ <;>
    simp [staticMgr, TokenManager.create, TokenManager.setExpiresAt,
      TokenManager.needsRefresh, TokenManager.canRefresh,
      TokenManager.getAccessToken, jsTruthyStr, jsTruthyNum]

/-- Claim C10: calling `refresh()` directly on a manager that cannot refresh
rejects with the fixed `Token refresh not available…` error before anything
else happens: the whole world — manager fields, stored file, and the count of
exchange calls — is returned unchanged. -/
theorem refresh_unavailable_rejects
    (exchange : Nat → Except String TokenResponse) (now : Int) (w : World)
    (h : w.mgr.canRefresh = false) :
    TokenManager.refresh exchange now w =
      (Except.error
        "Token refresh not available. Set CLIENT_ID, CLIENT_SECRET, and REFRESH_TOKEN.",
       w) := by
  simp [TokenManager.refresh, h]

/-- Witness for `refresh_unavailable_rejects` on a static-mode manager. -/
theorem refresh_unavailable_rejects_witness :
    TokenManager.refresh (fun _ => Except.error "net") 0
      { mgr := staticMgr "tok", file := FileState.missing, calls := 0 } =
      (Except.error
        "Token refresh not available. Set CLIENT_ID, CLIENT_SECRET, and REFRESH_TOKEN.",
       { mgr := staticMgr "tok", file := FileState.missing, calls := 0 }) :=
  refresh_unavailable_rejects (fun _ => Except.error "net") 0
    { mgr := staticMgr "tok", file := FileState.missing, calls := 0 } (by decide)

end Teamleader
